import Mathlib

/-!
Shallow embedding of the LIFX LAN client's device-communication core
(`lifxlan3/devices/device.py` and `lifxlan/light.py`).

The Python code performs UDP I/O; here every inbound side effect is made
explicit as an environment: `req_with_resp` receives, for each attempt
index, the (finite) list of decoded datagrams that arrive during that
attempt's wait window before the window times out.  Outbound side effects
(sends) are returned as data.  Real time, sockets and threads are not
modelled; the per-attempt timeout is represented by the end of the
attempt's datagram list.
-/

namespace Lifx

/-- Message type tags (from `lifxlan3.network.msgtypes`; only the tag
identity matters to the device core, which compares `type(response)`
against the expected response-type list). -/
inductive MsgType
  | Acknowledgement
  | GetLabel | StateLabel
  | GetLocation | StateLocation
  | GetGroup | StateGroup
  | GetPower | StatePower
  | GetHostFirmware | StateHostFirmware
  | GetWifiFirmware | StateWifiFirmware
  | GetVersion | StateVersion
  | GetWifiInfo | StateWifiInfo
  | GetInfo | StateInfo
  | SetLabel | SetPower
  | LightGet | LightState
  | LightGetPower | LightStatePower
  | LightSetColor | LightSetPower
  deriving DecidableEq

/-- The binary ON/OFF domain produced by power canonicalization.
Modelled from the spec: `PowerSettings` lives in `lifxlan3.settings`,
which is not in the source tree; the spec says power levels are
"normalized to a binary ON/OFF domain with historical numeric synonyms". -/
inductive PowerValue
  | on | off
  deriving DecidableEq

/-- A raw (pre-canonicalization) power value as the Python code may hold
it: a number (e.g. from a `StatePower` response), a string synonym, or an
already-canonical value (stored by the guarded setter). -/
inductive RawPower
  | num (n : Nat)
  | str (s : String)
  | pv (p : PowerValue)
  deriving DecidableEq

/-- `FirmwareInfo` namedtuple.  The Python default `version = -1.0` and the
derived `float(f"{v >> 16}.{v & 0xff}")` are modelled by the integer pair
(major, minor) the float string is built from, with `(-1, 0)` for the
`-1.0` default. -/
structure FirmwareInfo where
  build_timestamp : Int := -1
  version_major : Int := -1
  version_minor : Int := 0
  deriving DecidableEq

/-- A product-info field: either the `UNKNOWN` sentinel (the constructor
default) or a value carried by a `StateVersion` response (a wire integer,
hence never the sentinel). -/
inductive PVal
  | unknown
  | known (n : Nat)
  deriving DecidableEq

/-- `ProductInfo` namedtuple, defaulting every field to `UNKNOWN`. -/
structure ProductInfo where
  vendor : PVal := .unknown
  product : PVal := .unknown
  version : PVal := .unknown
  deriving DecidableEq

/-- HSBK color tuple cached by `Light`. -/
structure Color where
  hue : Nat
  saturation : Nat
  brightness : Nat
  kelvin : Nat
  deriving DecidableEq

/-- Mutable state of a `Device` object (`Device.__init__`): identity
fields plus the cached state fields, all starting unset/default. -/
structure Device where
  mac_addr : String
  ip_addr : Option String
  port : Nat
  service : Nat
  source_id : Nat
  label : Option String := none
  location : Option String := none
  group : Option String := none
  power_level : Option RawPower := none
  host_firmware_info : FirmwareInfo := {}
  wifi_firmware_info : FirmwareInfo := {}
  product_info : ProductInfo := {}
  deriving DecidableEq

/-- Python `str.lower()` on a mac-address string (ASCII): lowercase each
character. -/
def strLower (s : String) : String :=
  ⟨s.data.map Char.toLower⟩

/-- `Device.__init__`: lowercases the mac address, stores identity fields,
leaves every cached state field unset/default. -/
def mkDevice (mac_addr : String) (ip_addr : Option String)
    (service port source_id : Nat) : Device :=
  { mac_addr := strLower mac_addr
    ip_addr := ip_addr
    port := port
    service := service
    source_id := source_id }

/-- `Device.__eq__`: equality is by (already lowercased) mac address. -/
def deviceEq (a b : Device) : Bool :=
  a.mac_addr == b.mac_addr

/-- `Device.__hash__` is `hash(self.mac_addr)`: a fixed deterministic
function of the mac string alone, modelled by Lean's string hash. -/
def deviceHash (d : Device) : UInt64 :=
  d.mac_addr.hash

/-- Typed payloads carried by the messages the device core exchanges
(`lifxlan3.network.msgtypes` response fields consumed by `device.py` and
`light.py`). -/
inductive Payload
  | empty
  | label (label : String)
  | power (power_level : Nat)
  | setPower (power_level : PowerValue)
  | firmware (build : Nat) (version : Nat)
  | version (vendor : Nat) (product : Nat) (version : Nat)
  | wifiInfo (signal : Nat) (tx : Nat) (rx : Nat)
  | timeInfo (time : Nat) (uptime : Nat) (downtime : Nat)
  | lightState (color : Color) (power_level : Nat) (label : String)
  deriving DecidableEq

/-- An outbound protocol message as built by the workflow methods:
`msg_type(self.mac_addr, self.source_id, seq_num=0, payload=...,
ack_requested=..., response_requested=...)`. -/
structure Msg where
  msg_type : MsgType
  target_addr : String
  source_id : Nat
  seq_num : Nat
  payload : Payload
  ack_requested : Bool
  response_requested : Bool
  deriving DecidableEq

/-- A decoded inbound message as produced by `unpack_lifx_message`: its
runtime type tag plus the correlation fields the matcher reads. -/
structure Response where
  msg_type : MsgType
  source_id : Nat
  target_addr : String
  payload : Payload
  deriving DecidableEq

/-- An inbound datagram: the decoded response together with the sender's
IP address reported by `sock.recvfrom`. -/
structure Datagram where
  resp : Response
  sender_ip : String
  deriving DecidableEq

/-- `BROADCAST_MAC` from `lifxlan3.network.message` (not in the source
tree): the broadcast sentinel target address a device may echo back when
answering a broadcast-addressed request. -/
def BROADCAST_MAC : String := "00:00:00:00:00:00"

/-- The response-matching predicate applied to each decoded inbound
datagram in `req_with_resp`:
`type(response) in response_type and response.source_id == self.source_id
and (response.target_addr == self.mac_addr or
response.target_addr == BROADCAST_MAC)`. -/
def matchesResponse (d : Device) (responseTypes : List MsgType)
    (r : Response) : Bool :=
  responseTypes.contains r.msg_type &&
    (r.source_id == d.source_id &&
      (r.target_addr == d.mac_addr || r.target_addr == BROADCAST_MAC))

/-- One attempt's wait window: scan the datagrams received before the
window's timeout, discarding each non-matching one and stopping at the
first match (`response_seen = True` ends the inner loop; later datagrams
of the window are never read). -/
def firstMatch (d : Device) (responseTypes : List MsgType) :
    List Datagram → Option Datagram
  | [] => none
  | dg :: rest =>
    if matchesResponse d responseTypes dg.resp then some dg
    else firstMatch d responseTypes rest

/-- Destination addresses of one send: unicast to the cached `ip_addr`
when it is set, otherwise to every discovered broadcast address. -/
def sendTargets (d : Device) (broadcastAddrs : List String) : List String :=
  match d.ip_addr with
  | some ip => [ip]
  | none => broadcastAddrs

/-- The outer attempt loop of `req_with_resp`, searching attempts
`i, i+1, ...` while attempts remain: each attempt sends once and then
waits on its window; the loop stops at the first attempt whose window
contains a matching datagram.  Returns that attempt's index and datagram,
or `none` when all attempts are exhausted. -/
def findMatchingAttempt (d : Device) (responseTypes : List MsgType)
    (windows : Nat → List Datagram) : Nat → Nat → Option (Nat × Datagram)
  | _, 0 => none
  | i, remaining + 1 =>
    match firstMatch d responseTypes (windows i) with
    | some dg => some (i, dg)
    | none => findMatchingAttempt d responseTypes windows (i + 1) remaining

/-- The `NoResponse` exception raised when all attempts are exhausted,
carrying the requested type, the expected response types and the device
identity (`mac_addr` and cached label) interpolated into its message. -/
structure NoResponseErr where
  msg_type : MsgType
  response_types : List MsgType
  mac_addr : String
  label : Option String
  deriving DecidableEq

/-- Everything observable about one `req_with_resp` call: how many times
the request was sent (one send per executed attempt), the destination
addresses of each send (constant across the call, since `ip_addr` is only
assigned at the moment a match ends the loops), the outbound message, the
outcome, and the device state after the call. -/
structure RwrResult where
  numSends : Nat
  dests : List String
  sentMsg : Msg
  result : Except NoResponseErr Datagram
  dev : Device

/-- `req_with_resp`: build one envelope (ack-requested exactly when the
sole expected type is `Acknowledgement`), run up to `maxAttempts`
attempts — each sends the message once, then polls its wait window — and
either return the first matching datagram (caching the sender's IP as the
new `ip_addr`) or raise `NoResponse`.  `windows i` is the list of decoded
datagrams arriving during attempt `i`'s wait window. -/
def req_with_resp (d : Device) (msgType : MsgType) (responseTypes : List MsgType)
    (payload : Payload) (broadcastAddrs : List String) (maxAttempts : Nat)
    (windows : Nat → List Datagram) : RwrResult :=
  let ackRequested := responseTypes.length == 1 &&
    responseTypes.contains .Acknowledgement
  let msg : Msg :=
    { msg_type := msgType
      target_addr := d.mac_addr
      source_id := d.source_id
      seq_num := 0
      payload := payload
      ack_requested := ackRequested
      response_requested := !ackRequested }
  match findMatchingAttempt d responseTypes windows 0 maxAttempts with
  | some (i, dg) =>
    { numSends := i + 1
      dests := sendTargets d broadcastAddrs
      sentMsg := msg
      result := .ok dg
      dev := { d with ip_addr := some dg.sender_ip } }
  | none =>
    { numSends := maxAttempts
      dests := sendTargets d broadcastAddrs
      sentMsg := msg
      result := .error
        { msg_type := msgType
          response_types := responseTypes
          mac_addr := d.mac_addr
          label := d.label }
      dev := d }

/-- Everything observable about one `fire_and_forget` call: the sequence
of sends (each the message together with its destination addresses), the
inter-send sleep interval in milliseconds, and the device afterwards
(`fire_and_forget` mutates nothing). -/
structure FafResult where
  sends : List (Msg × List String)
  sleep_interval_ms : Nat
  dev : Device
  deriving DecidableEq

/-- The `while sent_msg_count < num_repeats` loop body: each iteration
sends the same packed message to the same destinations. -/
def fafSends (msg : Msg) (dests : List String) : Nat → List (Msg × List String)
  | 0 => []
  | n + 1 => (msg, dests) :: fafSends msg dests n

/-- `fire_and_forget`: build the message once (ack and response both not
requested, `seq_num = 0`), then send it `numRepeats` times, sleeping
`0.05 if num_repeats > 20 else 0` seconds between sends.  It never calls
`recvfrom`, so the inbound environment `inbound` is ignored and no
failure outcome exists. -/
def fire_and_forget (d : Device) (msgType : MsgType) (payload : Payload)
    (broadcastAddrs : List String) (numRepeats : Nat)
    (inbound : Nat → List Datagram) : FafResult :=
  let _ := inbound
  let msg : Msg :=
    { msg_type := msgType
      target_addr := d.mac_addr
      source_id := d.source_id
      seq_num := 0
      payload := payload
      ack_requested := false
      response_requested := false }
  { sends := fafSends msg (sendTargets d broadcastAddrs) numRepeats
    sleep_interval_ms := if numRepeats > 20 then 50 else 0
    dev := d }

/-- Modelled from the spec: `PowerSettings.validate` (in
`lifxlan3.settings`, not in the source tree) canonicalizes "multiple
numeric/string synonyms for on/off" into the binary ON/OFF domain and
rejects invalid power values before any network I/O; an unset cached
value (`None`) is not a synonym of either state. -/
def validatePower : Option RawPower → Option PowerValue
  | some (.pv p) => some p
  | some (.num 0) => some .off
  | some (.num 1) => some .on
  | some (.num 65535) => some .on
  | some (.str "on") => some .on
  | some (.str "off") => some .off
  | _ => none

/-- `Device._set_power`: canonicalize the requested value, then the cached
`power_level`; if the two canonical values coincide return immediately
(no datagram, no state change); otherwise store the canonical requested
value in the cache and emit the set message whose `power_level` payload
field reads the just-updated cache.  A value either side fails to
canonicalize on is a validation error raised before any send
(`.error ()`); `.ok (d2, none)` is the silent no-op; `.ok (d2, some p)`
means the set message with payload value `p` was sent and `d2` is the
device afterwards. -/
def set_power_model (d : Device) (power : RawPower) :
    Except Unit (Device × Option PowerValue) :=
  match validatePower (some power) with
  | none => .error ()
  | some p =>
    match validatePower d.power_level with
    | none => .error ()
    | some ps =>
      if ps == p then .ok (d, none)
      else .ok ({ d with power_level := some (.pv p) }, some p)

/-- Python string slicing `label[:32]`: the first 32 characters
(code points) of the string. -/
def strTake (s : String) (n : Nat) : String :=
  ⟨s.data.take n⟩

/-- `Device.set_label`: truncate the argument to its first 32 characters,
store that in the cache, then send `SetLabel` whose payload label reads
the just-updated cache (via `req_with_ack`, so the envelope has
`ack_requested=True`, `response_requested=False`). -/
def set_label_model (d : Device) (label : String) : Device × Msg :=
  let d2 := { d with label := some (strTake label 32) }
  (d2,
    { msg_type := .SetLabel
      target_addr := d2.mac_addr
      source_id := d2.source_id
      seq_num := 0
      payload := .label (strTake label 32)
      ack_requested := true
      response_requested := false })

/-- The check `self.product is None or UNKNOWN in self.product_info`
guarding the lazy version-info refresh.  `product` is `product_info.product`,
which is either the `UNKNOWN` default or a wire integer from a
`StateVersion` response, so the `is None` disjunct never holds and the
membership test means: some field of the namedtuple equals `UNKNOWN`. -/
def productUnresolved (d : Device) : Bool :=
  d.product_info.vendor == .unknown ||
    d.product_info.product == .unknown ||
    d.product_info.version == .unknown

/-- Payload of a `StateVersion` response. -/
structure StateVersionPayload where
  vendor : Nat
  product : Nat
  version : Nat
  deriving DecidableEq

/-- `Device._refresh_version_info(only_if_needed=...)`: unless the refresh
is skippable (`only_if_needed` and the product already resolved), perform
`req_with_resp(GetVersion, StateVersion)` — abstracted by `env`:
`some r` is a successful call returning `r`, `none` is `NoResponse` —
and on success overwrite `product_info` with the response fields.
Returns (device afterwards, whether a request was issued, whether
`NoResponse` was raised). -/
def refresh_version_info (d : Device) (onlyIfNeeded : Bool)
    (env : Option StateVersionPayload) : Device × Bool × Bool :=
  if onlyIfNeeded && !productUnresolved d then (d, false, false)
  else
    match env with
    | some r =>
      ({ d with product_info :=
          { vendor := .known r.vendor
            product := .known r.product
            version := .known r.version } }, true, false)
    | none => (d, true, true)

/-- `SupportsDesc.__get__` (the `supports_color` / `supports_temperature`
/ `supports_multizone` / `supports_infrared` / `supports_chain`
accessors): call `_refresh_version_info(only_if_needed=True)`, then look
the feature up in `features_map.get(self.product)` (an external static
table, passed in as `fmap`).  Returns (device afterwards, whether a
version-info request was issued, `some flag` on success or `none` when
the refresh raised `NoResponse` and the access propagates it). -/
def supportsAccess (d : Device) (fmap : PVal → String → Bool)
    (feature : String) (env : Option StateVersionPayload) :
    Device × Bool × Option Bool :=
  match refresh_version_info d true env with
  | (d2, fetched, true) => (d2, fetched, none)
  | (d2, fetched, false) => (d2, fetched, some (fmap d2.product_info.product feature))

/-- Derived firmware info cached by `_refresh_host_firmware_info` /
`_refresh_wifi_firmware_info` from a `State*Firmware` response: the build
timestamp and the version split as `version >> 16` and `version & 0xff`. -/
def fwFromResponse (build rawVersion : Nat) : FirmwareInfo :=
  { build_timestamp := Int.ofNat build
    version_major := Int.ofNat (rawVersion >>> 16)
    version_minor := Int.ofNat (rawVersion % 256) }

/-- Outcomes of the seven per-field `req_with_resp` calls issued by
`refresh()`, one entry per `_refresh_funcs` member: `some v` means the
call succeeded with a response carrying `v`; `none` means it raised
`NoResponse`.  The seven operations run on a worker pool and write
pairwise disjoint fields, so any serialization has the same final cache. -/
structure RefreshEnv where
  label : Option String := none
  location : Option String := none
  group : Option String := none
  power : Option Nat := none
  hostFw : Option (Nat × Nat) := none
  wifiFw : Option (Nat × Nat) := none
  version : Option StateVersionPayload := none
  deriving DecidableEq

/-- `Device._refresh_label`: cache the response's label (the
encode/decode round-trip in the Python is the identity on strings). -/
def refresh_label (d : Device) : Option String → Device × Bool
  | some s => ({ d with label := some s }, true)
  | none => (d, false)

/-- `Device._refresh_location`. -/
def refresh_location (d : Device) : Option String → Device × Bool
  | some s => ({ d with location := some s }, true)
  | none => (d, false)

/-- `Device._refresh_group`. -/
def refresh_group (d : Device) : Option String → Device × Bool
  | some s => ({ d with group := some s }, true)
  | none => (d, false)

/-- `Device._refresh_power`: cache the response's numeric `power_level`. -/
def refresh_power (d : Device) : Option Nat → Device × Bool
  | some n => ({ d with power_level := some (.num n) }, true)
  | none => (d, false)

/-- `Device._refresh_host_firmware_info`. -/
def refresh_host_firmware (d : Device) : Option (Nat × Nat) → Device × Bool
  | some bv => ({ d with host_firmware_info := fwFromResponse bv.1 bv.2 }, true)
  | none => (d, false)

/-- `Device._refresh_wifi_firmware_info`. -/
def refresh_wifi_firmware (d : Device) : Option (Nat × Nat) → Device × Bool
  | some bv => ({ d with wifi_firmware_info := fwFromResponse bv.1 bv.2 }, true)
  | none => (d, false)

/-- `Device.refresh()`: submit all seven `_refresh_funcs` to the worker
pool, wait for all of them, then return `True` iff iterating the futures'
results raises no `NoResponse` (`contextlib.suppress` turns the first
failure into `return False`).  Every operation runs to completion either
way, so the cache updates of each individually successful operation are
in place whatever the boolean says. -/
def refresh (d : Device) (env : RefreshEnv) : Device × Bool :=
  let (d1, ok1) := refresh_label d env.label
  let (d2, ok2) := refresh_location d1 env.location
  let (d3, ok3) := refresh_group d2 env.group
  let (d4, ok4) := refresh_power d3 env.power
  let (d5, ok5) := refresh_host_firmware d4 env.hostFw
  let (d6, ok6) := refresh_wifi_firmware d5 env.wifiFw
  let (d7, fetched7, failed7) := refresh_version_info d6 false env.version
  let _ := fetched7
  (d7, ok1 && ok2 && ok3 && ok4 && ok5 && ok6 && !failed7)

/-- Mutable state of a `Light` object (`lifxlan/light.py`): the `Device`
fields plus the cached color and infrared brightness. -/
structure Light where
  dev : Device
  color : Option Color := none
  infrared_brightness : Option Nat := none
  deriving DecidableEq

/-- Payload of a `LightState` response as read by `get_color`. -/
structure LightStateResp where
  color : Color
  power_level : Nat
  label : String
  deriving DecidableEq

/-- `Light.get_color` on a successful `req_with_resp(LightGet, LightState)`
call: the reliability layer caches the responding sender's IP, then the
method caches `Color(*response.color)`, the response's `power_level` and
the response's `label`, and returns the color. -/
def get_color (l : Light) (r : LightStateResp) (sender_ip : String) :
    Light × Color :=
  let d2 := { l.dev with ip_addr := some sender_ip }
  let l2 :=
    { l with
      dev := { d2 with
        power_level := some (.num r.power_level)
        label := some r.label }
      color := some r.color }
  (l2, r.color)

/-! ### Helper lemmas about the attempt loop -/

theorem firstMatch_some_matches {d : Device} {rts : List MsgType}
    {l : List Datagram} {dg : Datagram} (h : firstMatch d rts l = some dg) :
    matchesResponse d rts dg.resp = true := by
  induction l with
  | nil => simp [firstMatch] at h
  | cons x xs ih =>
    by_cases hx : matchesResponse d rts x.resp
    · simp [firstMatch, hx] at h
      subst h; exact hx
    · simp only [firstMatch, if_neg hx] at h
      exact ih h

theorem firstMatch_none_of_all {d : Device} {rts : List MsgType}
    {l : List Datagram} (h : ∀ dg ∈ l, matchesResponse d rts dg.resp = false) :
    firstMatch d rts l = none := by
  induction l with
  | nil => rfl
  | cons x xs ih =>
    have hx := h x (List.mem_cons_self x xs)
    simp only [firstMatch, hx, Bool.false_eq_true, if_false]
    exact ih fun dg hdg => h dg (List.mem_cons_of_mem x hdg)

theorem firstMatch_cons_skip {d : Device} {rts : List MsgType}
    {bad : Datagram} (l : List Datagram)
    (h : matchesResponse d rts bad.resp = false) :
    firstMatch d rts (bad :: l) = firstMatch d rts l := by
  simp [firstMatch, h]

theorem findMatchingAttempt_some {d : Device} {rts : List MsgType}
    {w : Nat → List Datagram} {i rem j : Nat} {dg : Datagram}
    (h : findMatchingAttempt d rts w i rem = some (j, dg)) :
    firstMatch d rts (w j) = some dg ∧ i ≤ j ∧ j < i + rem := by
  induction rem generalizing i with
  | zero => simp [findMatchingAttempt] at h
  | succ n ih =>
    rw [findMatchingAttempt] at h
    cases hfm : firstMatch d rts (w i) with
    | some dg0 =>
      rw [hfm] at h
      cases h
      exact ⟨hfm, le_refl _, by omega⟩
    | none =>
      rw [hfm] at h
      obtain ⟨h1, h2, h3⟩ := ih h
      exact ⟨h1, by omega, by omega⟩

theorem findMatchingAttempt_none {d : Device} {rts : List MsgType}
    {w : Nat → List Datagram} {i rem : Nat}
    (h : ∀ j, i ≤ j → j < i + rem → firstMatch d rts (w j) = none) :
    findMatchingAttempt d rts w i rem = none := by
  induction rem generalizing i with
  | zero => rfl
  | succ n ih =>
    rw [findMatchingAttempt]
    rw [h i (le_refl i) (by omega)]
    exact ih fun j h1 h2 => h j (by omega) (by omega)

theorem findMatchingAttempt_congr {d : Device} {rts : List MsgType}
    {w w2 : Nat → List Datagram}
    (h : ∀ i, firstMatch d rts (w2 i) = firstMatch d rts (w i)) :
    ∀ i rem, findMatchingAttempt d rts w2 i rem = findMatchingAttempt d rts w i rem := by
  intro i rem
  induction rem generalizing i with
  | zero => rfl
  | succ n ih =>
    rw [findMatchingAttempt, findMatchingAttempt, h i]
    cases firstMatch d rts (w i) with
    | some dg => rfl
    | none => exact ih (i + 1)

theorem fafSends_length (msg : Msg) (dests : List String) (n : Nat) :
    (fafSends msg dests n).length = n := by
  induction n with
  | zero => rfl
  | succ k ih => simpa [fafSends] using ih

theorem fafSends_mem {msg : Msg} {dests : List String} {n : Nat}
    {x : Msg × List String} (h : x ∈ fafSends msg dests n) : x = (msg, dests) := by
  induction n with
  | zero => simp [fafSends] at h
  | succ k ih =>
    simp only [fafSends, List.mem_cons] at h
    rcases h with h | h
    · exact h
    · exact ih h

/-! ### C4: fire_and_forget send count, pacing, and response independence -/

/-- C4: for every repeat count `n`, `fire_and_forget` performs exactly `n`
sends, all of the identical message to the identical destinations; the
inter-send delay is 0 ms when `n ≤ 20` and 50 ms when `n > 20`; the
result is independent of whatever inbound datagrams arrive (it never
receives), it never fails for lack of response (total, no error
outcome), and it leaves the device unchanged. -/
theorem fire_and_forget_spec (d : Device) (msgType : MsgType) (payload : Payload)
    (broadcastAddrs : List String) (n : Nat) (inb inb2 : Nat → List Datagram) :
    (fire_and_forget d msgType payload broadcastAddrs n inb).sends.length = n ∧
    (∀ x ∈ (fire_and_forget d msgType payload broadcastAddrs n inb).sends,
      ∀ y ∈ (fire_and_forget d msgType payload broadcastAddrs n inb).sends, x = y) ∧
    (fire_and_forget d msgType payload broadcastAddrs n inb).sleep_interval_ms
      = (if n ≤ 20 then 0 else 50) ∧
    fire_and_forget d msgType payload broadcastAddrs n inb
      = fire_and_forget d msgType payload broadcastAddrs n inb2 ∧
    (fire_and_forget d msgType payload broadcastAddrs n inb).dev = d := by
  refine ⟨fafSends_length _ _ n, ?_, ?_, rfl, rfl⟩
  · intro x hx y hy
    rw [fafSends_mem hx, fafSends_mem hy]
  · have hrfl : (fire_and_forget d msgType payload broadcastAddrs n inb).sleep_interval_ms
        = if n > 20 then 50 else 0 := rfl
    rw [hrfl]
    by_cases h : n ≤ 20
    · simp [h, Nat.not_lt.mpr h]
    · simp [h, Nat.lt_of_not_le h]

/-- Witness for C4 at concrete inputs (`n = 5`, the spec's example). -/
theorem fire_and_forget_spec_witness :
    (fire_and_forget (mkDevice "d0:73:d5:00:00:01" none 1 56700 7) .GetLabel .empty
      ["192.168.1.255"] 5 (fun _ => [])).sends.length = 5 :=
  (fire_and_forget_spec (mkDevice "d0:73:d5:00:00:01" none 1 56700 7) .GetLabel .empty
    ["192.168.1.255"] 5 (fun _ => []) (fun _ => [])).1

/-! ### C1: the response-matching predicate governs acceptance -/

/-- C1: an inbound decoded datagram is accepted by `req_with_resp` only
if it satisfies the match predicate — decoded type among the expected
response types, `source_id` equal to the device's, and target address
equal to the device's mac or the broadcast sentinel; a datagram failing
the predicate (e.g. mismatched `source_id`) is discarded without
terminating the wait (deleting it from its window changes nothing of the
call's outcome); and if no received datagram ever satisfies the
predicate, the call raises `NoResponse` carrying the request type, the
expected response types and the device identity. -/
theorem req_with_resp_match_predicate (d : Device) (msgType : MsgType)
    (rts : List MsgType) (payload : Payload) (bcast : List String)
    (maxAttempts : Nat) (windows : Nat → List Datagram) :
    (∀ r : Response, matchesResponse d rts r = true ↔
      (r.msg_type ∈ rts ∧ r.source_id = d.source_id ∧
        (r.target_addr = d.mac_addr ∨ r.target_addr = BROADCAST_MAC))) ∧
    (∀ dg : Datagram,
      (req_with_resp d msgType rts payload bcast maxAttempts windows).result = .ok dg →
      matchesResponse d rts dg.resp = true) ∧
    (∀ (j : Nat) (bad : Datagram), matchesResponse d rts bad.resp = false →
      req_with_resp d msgType rts payload bcast maxAttempts
          (fun i => if i = j then bad :: windows i else windows i)
        = req_with_resp d msgType rts payload bcast maxAttempts windows) ∧
    ((∀ i, i < maxAttempts → ∀ dg ∈ windows i, matchesResponse d rts dg.resp = false) →
      (req_with_resp d msgType rts payload bcast maxAttempts windows).result
        = .error ⟨msgType, rts, d.mac_addr, d.label⟩) := by
  refine ⟨?_, ?_, ?_, ?_⟩
  · intro r
    simp [matchesResponse, List.contains]
  · intro dg h
    cases hfa : findMatchingAttempt d rts windows 0 maxAttempts with
    | some pr =>
      obtain ⟨i, dg0⟩ := pr
      simp only [req_with_resp, hfa] at h
      cases h
      exact firstMatch_some_matches (findMatchingAttempt_some hfa).1
    | none => simp [req_with_resp, hfa] at h
  · intro j bad hbad
    have hfm : ∀ i, firstMatch d rts
        ((fun i => if i = j then bad :: windows i else windows i) i)
          = firstMatch d rts (windows i) := by
      intro i
      by_cases hij : i = j
      · simp only [hij, if_pos rfl]
        exact firstMatch_cons_skip (windows j) hbad
      · simp [hij]
    have hcongr := findMatchingAttempt_congr hfm 0 maxAttempts
    simp only [req_with_resp, hcongr]
  · intro hall
    have hnone : findMatchingAttempt d rts windows 0 maxAttempts = none := by
      apply findMatchingAttempt_none
      intro j h0 hlt
      exact firstMatch_none_of_all fun dg hdg => hall j (by omega) dg hdg
    simp [req_with_resp, hnone]

/-- Witness for C1 at concrete inputs: a device receiving, in a single
wait window, one datagram with a mismatched `source_id` discards it and
the call fails with `NoResponse`. -/
theorem req_with_resp_match_predicate_witness :
    (req_with_resp (mkDevice "aa:bb:cc:dd:ee:ff" none 1 56700 7) .GetLabel
        [.StateLabel] .empty ["192.168.1.255"] 2
        (fun _ => [⟨⟨.StateLabel, 99, "aa:bb:cc:dd:ee:ff", .label "x"⟩, "10.0.0.2"⟩])).result
      = .error ⟨.GetLabel, [.StateLabel], "aa:bb:cc:dd:ee:ff", none⟩ :=
  (req_with_resp_match_predicate (mkDevice "aa:bb:cc:dd:ee:ff" none 1 56700 7) .GetLabel
    [.StateLabel] .empty ["192.168.1.255"] 2
    (fun _ => [⟨⟨.StateLabel, 99, "aa:bb:cc:dd:ee:ff", .label "x"⟩, "10.0.0.2"⟩])).2.2.2
    (by intro i hi dg hdg; simp at hdg; rw [hdg]; decide)

/-! ### C2: attempt counting and early return -/

/-- C2: when no received datagram ever satisfies the match predicate,
`req_with_resp` sends the request exactly `maxAttempts` times (once per
attempt) and then raises `NoResponse`; conversely, when the first
attempt's wait window contains a matching datagram, the call returns
that decoded response after a single send. -/
theorem req_with_resp_attempt_count (d : Device) (msgType : MsgType)
    (rts : List MsgType) (payload : Payload) (bcast : List String)
    (maxAttempts : Nat) (windows : Nat → List Datagram) :
    ((∀ i, i < maxAttempts → ∀ dg ∈ windows i, matchesResponse d rts dg.resp = false) →
      (req_with_resp d msgType rts payload bcast maxAttempts windows).numSends
          = maxAttempts ∧
      ∃ e, (req_with_resp d msgType rts payload bcast maxAttempts windows).result
          = .error e) ∧
    (∀ dg : Datagram, firstMatch d rts (windows 0) = some dg → 1 ≤ maxAttempts →
      (req_with_resp d msgType rts payload bcast maxAttempts windows).numSends = 1 ∧
      (req_with_resp d msgType rts payload bcast maxAttempts windows).result
        = .ok dg) := by
  constructor
  · intro hall
    have hnone : findMatchingAttempt d rts windows 0 maxAttempts = none := by
      apply findMatchingAttempt_none
      intro j h0 hlt
      exact firstMatch_none_of_all fun dg hdg => hall j (by omega) dg hdg
    constructor
    · simp [req_with_resp, hnone]
    · exact ⟨⟨msgType, rts, d.mac_addr, d.label⟩, by simp [req_with_resp, hnone]⟩
  · intro dg hfm hn
    obtain ⟨k, rfl⟩ : ∃ k, maxAttempts = k + 1 :=
      ⟨maxAttempts - 1, by omega⟩
    have hfa : findMatchingAttempt d rts windows 0 (k + 1) = some (0, dg) := by
      rw [findMatchingAttempt, hfm]
    constructor
    · simp [req_with_resp, hfa]
    · simp [req_with_resp, hfa]

/-- Witness for C2 at concrete inputs: an unanswered call with
`maxAttempts = 4` performs 4 sends, and a first-window match returns
after exactly 1 send. -/
theorem req_with_resp_attempt_count_witness :
    (req_with_resp (mkDevice "aa:bb:cc:dd:ee:ff" none 1 56700 7) .GetPower
        [.StatePower] .empty ["192.168.1.255"] 4 (fun _ => [])).numSends = 4 ∧
    (req_with_resp (mkDevice "aa:bb:cc:dd:ee:ff" none 1 56700 7) .GetPower
        [.StatePower] .empty ["192.168.1.255"] 4
        (fun _ => [⟨⟨.StatePower, 7, "aa:bb:cc:dd:ee:ff", .power 65535⟩, "10.0.0.9"⟩])).numSends
      = 1 :=
  ⟨((req_with_resp_attempt_count (mkDevice "aa:bb:cc:dd:ee:ff" none 1 56700 7) .GetPower
      [.StatePower] .empty ["192.168.1.255"] 4 (fun _ => [])).1
      (by intro i hi dg hdg; simp at hdg)).1,
    ((req_with_resp_attempt_count (mkDevice "aa:bb:cc:dd:ee:ff" none 1 56700 7) .GetPower
      [.StatePower] .empty ["192.168.1.255"] 4
      (fun _ => [⟨⟨.StatePower, 7, "aa:bb:cc:dd:ee:ff", .power 65535⟩, "10.0.0.9"⟩])).2
      ⟨⟨.StatePower, 7, "aa:bb:cc:dd:ee:ff", .power 65535⟩, "10.0.0.9"⟩
      (by decide) (by omega)).1⟩

/-! ### C6: broadcast fallback and opportunistic IP caching -/

/-- C6: a request (response-soliciting or fire-and-forget) from a device
with unset `ip_addr` is sent to every discovered broadcast address, and
one with cached `ip_addr` is unicast to that address only;
`fire_and_forget` never mutates the device, and `req_with_resp` mutates
`ip_addr` only upon a verified matching response — a failed call leaves
the device untouched, and a matched call sets `ip_addr` to the
responder's sender address, after which a subsequent `req_with_resp` or
`fire_and_forget` targets exactly that address. -/
theorem request_addressing (d : Device) (msgType msgType2 : MsgType)
    (rts rts2 : List MsgType) (payload payload2 : Payload) (bcast : List String)
    (maxAttempts maxAttempts2 n2 : Nat) (windows windows2 : Nat → List Datagram)
    (inb : Nat → List Datagram) :
    (d.ip_addr = none →
      (req_with_resp d msgType rts payload bcast maxAttempts windows).dests = bcast ∧
      ∀ x ∈ (fire_and_forget d msgType payload bcast n2 inb).sends, x.2 = bcast) ∧
    (∀ ip, d.ip_addr = some ip →
      (req_with_resp d msgType rts payload bcast maxAttempts windows).dests = [ip] ∧
      ∀ x ∈ (fire_and_forget d msgType payload bcast n2 inb).sends, x.2 = [ip]) ∧
    (fire_and_forget d msgType payload bcast n2 inb).dev = d ∧
    (∀ e, (req_with_resp d msgType rts payload bcast maxAttempts windows).result
        = .error e →
      (req_with_resp d msgType rts payload bcast maxAttempts windows).dev = d) ∧
    (∀ dg, (req_with_resp d msgType rts payload bcast maxAttempts windows).result
        = .ok dg →
      (req_with_resp d msgType rts payload bcast maxAttempts windows).dev
          = { d with ip_addr := some dg.sender_ip } ∧
      (req_with_resp
          (req_with_resp d msgType rts payload bcast maxAttempts windows).dev
          msgType2 rts2 payload2 bcast maxAttempts2 windows2).dests
        = [dg.sender_ip] ∧
      ∀ x ∈ (fire_and_forget
          (req_with_resp d msgType rts payload bcast maxAttempts windows).dev
          msgType2 payload2 bcast n2 inb).sends, x.2 = [dg.sender_ip]) := by
  refine ⟨?_, ?_, rfl, ?_, ?_⟩
  · intro hip
    constructor
    · cases hfa : findMatchingAttempt d rts windows 0 maxAttempts with
      | some pr => simp [req_with_resp, hfa, sendTargets, hip]
      | none => simp [req_with_resp, hfa, sendTargets, hip]
    · intro x hx
      rw [fafSends_mem hx]
      simp [sendTargets, hip]
  · intro ip hip
    constructor
    · cases hfa : findMatchingAttempt d rts windows 0 maxAttempts with
      | some pr => simp [req_with_resp, hfa, sendTargets, hip]
      | none => simp [req_with_resp, hfa, sendTargets, hip]
    · intro x hx
      rw [fafSends_mem hx]
      simp [sendTargets, hip]
  · intro e he
    cases hfa : findMatchingAttempt d rts windows 0 maxAttempts with
    | some pr => simp [req_with_resp, hfa] at he
    | none => simp [req_with_resp, hfa]
  · intro dg hdg
    cases hfa : findMatchingAttempt d rts windows 0 maxAttempts with
    | some pr =>
      obtain ⟨i, dg0⟩ := pr
      simp only [req_with_resp, hfa] at hdg ⊢
      cases hdg
      refine ⟨rfl, ?_, ?_⟩
      · cases hfa2 : findMatchingAttempt { d with ip_addr := some dg.sender_ip }
            rts2 windows2 0 maxAttempts2 with
        | some pr2 => simp [req_with_resp, hfa2, sendTargets]
        | none => simp [req_with_resp, hfa2, sendTargets]
      · intro x hx
        rw [fafSends_mem hx]
        simp [sendTargets]
    | none => simp [req_with_resp, hfa] at hdg

/-- Witness for C6 at concrete inputs: with `ip_addr` unset the request
is broadcast, and after a matched response the follow-up request is
unicast to the responder. -/
theorem request_addressing_witness :
    (req_with_resp (mkDevice "aa:bb:cc:dd:ee:ff" none 1 56700 7) .GetPower
        [.StatePower] .empty ["192.168.1.255", "10.0.255.255"] 4
        (fun _ => [])).dests = ["192.168.1.255", "10.0.255.255"] ∧
    (req_with_resp
        (req_with_resp (mkDevice "aa:bb:cc:dd:ee:ff" none 1 56700 7) .GetPower
          [.StatePower] .empty ["192.168.1.255", "10.0.255.255"] 4
          (fun _ => [⟨⟨.StatePower, 7, "aa:bb:cc:dd:ee:ff", .power 0⟩, "10.0.0.9"⟩])).dev
        .GetLabel [.StateLabel] .empty ["192.168.1.255", "10.0.255.255"] 4
        (fun _ => [])).dests = ["10.0.0.9"] :=
  ⟨((request_addressing (mkDevice "aa:bb:cc:dd:ee:ff" none 1 56700 7) .GetPower .GetLabel
      [.StatePower] [.StateLabel] .empty .empty ["192.168.1.255", "10.0.255.255"] 4 4 3
      (fun _ => []) (fun _ => []) (fun _ => [])).1 rfl).1,
    (((request_addressing (mkDevice "aa:bb:cc:dd:ee:ff" none 1 56700 7) .GetPower .GetLabel
      [.StatePower] [.StateLabel] .empty .empty ["192.168.1.255", "10.0.255.255"] 4 4 3
      (fun _ => [⟨⟨.StatePower, 7, "aa:bb:cc:dd:ee:ff", .power 0⟩, "10.0.0.9"⟩])
      (fun _ => []) (fun _ => [])).2.2.2.2
      ⟨⟨.StatePower, 7, "aa:bb:cc:dd:ee:ff", .power 0⟩, "10.0.0.9"⟩
      (by rfl)).2.1)⟩

/-! ### C7: case-insensitive device equality and hash -/

/-- C7: two devices constructed from mac addresses that agree up to
letter case compare equal and have equal hashes (construction lowercases
the mac, and both `__eq__` and `__hash__` read only the stored mac). -/
theorem device_eq_hash_case_insensitive
    (mac1 mac2 : String) (ip1 ip2 : Option String)
    (sv1 pt1 sid1 sv2 pt2 sid2 : Nat)
    (h : strLower mac1 = strLower mac2) :
    deviceEq (mkDevice mac1 ip1 sv1 pt1 sid1) (mkDevice mac2 ip2 sv2 pt2 sid2) = true ∧
    deviceHash (mkDevice mac1 ip1 sv1 pt1 sid1)
      = deviceHash (mkDevice mac2 ip2 sv2 pt2 sid2) := by
  constructor
  · simp [deviceEq, mkDevice, h]
  · simp [deviceHash, mkDevice, h]

/-- Witness for C7: the spec's example pair, upper- and lower-case forms
of the same mac address. -/
theorem device_eq_hash_case_insensitive_witness :
    deviceEq (mkDevice "AA:BB:CC:DD:EE:FF" none 1 56700 3)
        (mkDevice "aa:bb:cc:dd:ee:ff" none 1 56700 4) = true ∧
    deviceHash (mkDevice "AA:BB:CC:DD:EE:FF" none 1 56700 3)
      = deviceHash (mkDevice "aa:bb:cc:dd:ee:ff" none 1 56700 4) :=
  device_eq_hash_case_insensitive "AA:BB:CC:DD:EE:FF" "aa:bb:cc:dd:ee:ff"
    none none 1 56700 3 1 56700 4 (by decide)

/-! ### C3: refresh aggregation without rollback -/

/-- C3: `refresh()` returns `true` exactly when all seven per-field
operations complete without `NoResponse`; each operation that succeeds
writes its response value into its cache field whether or not the others
fail (no rollback), and each operation that fails leaves its field
unchanged. -/
theorem refresh_aggregates (d : Device) (env : RefreshEnv) :
    ((refresh d env).2 = true ↔
      (env.label.isSome = true ∧ env.location.isSome = true ∧
        env.group.isSome = true ∧ env.power.isSome = true ∧
        env.hostFw.isSome = true ∧ env.wifiFw.isSome = true ∧
        env.version.isSome = true)) ∧
    (∀ s, env.label = some s → (refresh d env).1.label = some s) ∧
    (env.label = none → (refresh d env).1.label = d.label) ∧
    (∀ s, env.location = some s → (refresh d env).1.location = some s) ∧
    (env.location = none → (refresh d env).1.location = d.location) ∧
    (∀ s, env.group = some s → (refresh d env).1.group = some s) ∧
    (env.group = none → (refresh d env).1.group = d.group) ∧
    (∀ n, env.power = some n → (refresh d env).1.power_level = some (.num n)) ∧
    (env.power = none → (refresh d env).1.power_level = d.power_level) ∧
    (∀ bv, env.hostFw = some bv →
      (refresh d env).1.host_firmware_info = fwFromResponse bv.1 bv.2) ∧
    (env.hostFw = none →
      (refresh d env).1.host_firmware_info = d.host_firmware_info) ∧
    (∀ bv, env.wifiFw = some bv →
      (refresh d env).1.wifi_firmware_info = fwFromResponse bv.1 bv.2) ∧
    (env.wifiFw = none →
      (refresh d env).1.wifi_firmware_info = d.wifi_firmware_info) ∧
    (∀ r, env.version = some r →
      (refresh d env).1.product_info
        = ⟨.known r.vendor, .known r.product, .known r.version⟩) ∧
    (env.version = none → (refresh d env).1.product_info = d.product_info) := by
  obtain ⟨el, eloc, eg, ep, ehf, ewf, ev⟩ := env
  cases el <;> cases eloc <;> cases eg <;> cases ep <;>
    cases ehf <;> cases ewf <;> cases ev <;>
    simp [refresh, refresh_label, refresh_location, refresh_group, refresh_power,
      refresh_host_firmware, refresh_wifi_firmware, refresh_version_info]

/-- Witness for C3 at concrete inputs: with exactly one operation (wifi
firmware) failing, `refresh` returns `false` yet the successful label
update is in place. -/
theorem refresh_aggregates_witness :
    (refresh (mkDevice "aa:bb:cc:dd:ee:ff" none 1 56700 7)
        { label := some "den", location := some "home", group := some "all",
          power := some 65535, hostFw := some (10, 131072),
          wifiFw := none, version := some ⟨1, 22, 0⟩ }).2 = false ∧
    (refresh (mkDevice "aa:bb:cc:dd:ee:ff" none 1 56700 7)
        { label := some "den", location := some "home", group := some "all",
          power := some 65535, hostFw := some (10, 131072),
          wifiFw := none, version := some ⟨1, 22, 0⟩ }).1.label = some "den" := by
  constructor
  · have h := (refresh_aggregates (mkDevice "aa:bb:cc:dd:ee:ff" none 1 56700 7)
      { label := some "den", location := some "home", group := some "all",
        power := some 65535, hostFw := some (10, 131072),
        wifiFw := none, version := some ⟨1, 22, 0⟩ }).1
    rcases hb : (refresh (mkDevice "aa:bb:cc:dd:ee:ff" none 1 56700 7)
        { label := some "den", location := some "home", group := some "all",
          power := some 65535, hostFw := some (10, 131072),
          wifiFw := none, version := some ⟨1, 22, 0⟩ }).2 with _ | _
    · rfl
    · exact absurd ((h.mp hb).2.2.2.2.2.1) (by decide)
  · exact (refresh_aggregates (mkDevice "aa:bb:cc:dd:ee:ff" none 1 56700 7)
      { label := some "den", location := some "home", group := some "all",
        power := some 65535, hostFw := some (10, 131072),
        wifiFw := none, version := some ⟨1, 22, 0⟩ }).2.1 "den" rfl

/-! ### C5: idempotent power-transition guard -/

/-- C5: when the requested power value canonicalizes to the same value
as the cached `power_level`, the setter returns without sending and
without mutating any state; when the canonical values differ, it stores
the canonical requested value in the cache and sends the set message
whose payload carries exactly that just-cached value. -/
theorem set_power_guard (d : Device) (power : RawPower) (p q : PowerValue)
    (hp : validatePower (some power) = some p)
    (hq : validatePower d.power_level = some q) :
    (p = q → set_power_model d power = .ok (d, none)) ∧
    (p ≠ q →
      set_power_model d power
        = .ok ({ d with power_level := some (.pv p) }, some p)) := by
  constructor
  · intro hpq
    subst hpq
    simp [set_power_model, hp, hq]
  · intro hpq
    have hne : (q == p) = false := by
      simp only [beq_eq_false_iff_ne]
      exact fun h => hpq h.symm
    simp [set_power_model, hp, hq, hne]

/-- Witness for C5 at concrete inputs: requesting `65535` (a synonym of
ON) on a device whose cache canonicalizes to OFF stores and sends ON;
the no-op direction is exercised by the same theorem applied where both
canonicalize to OFF. -/
theorem set_power_guard_witness :
    set_power_model
        { mkDevice "aa:bb:cc:dd:ee:ff" none 1 56700 7 with
            power_level := some (.pv .off) } (.num 65535)
      = .ok ({ mkDevice "aa:bb:cc:dd:ee:ff" none 1 56700 7 with
            power_level := some (.pv (.on)) }, some .on) ∧
    set_power_model
        { mkDevice "aa:bb:cc:dd:ee:ff" none 1 56700 7 with
            power_level := some (.pv .off) } (.num 0)
      = .ok ({ mkDevice "aa:bb:cc:dd:ee:ff" none 1 56700 7 with
            power_level := some (.pv .off) }, none) :=
  ⟨(set_power_guard
      { mkDevice "aa:bb:cc:dd:ee:ff" none 1 56700 7 with
          power_level := some (.pv .off) } (.num 65535) .on .off rfl rfl).2
      (by decide),
    (set_power_guard
      { mkDevice "aa:bb:cc:dd:ee:ff" none 1 56700 7 with
          power_level := some (.pv .off) } (.num 0) .off .off rfl rfl).1 rfl⟩

/-! ### C8: feature flags resolved lazily, at most once -/

theorem refresh_version_info_skip {d : Device}
    (hu : productUnresolved d = false) (env : Option StateVersionPayload) :
    refresh_version_info d true env = (d, false, false) := by
  simp [refresh_version_info, hu]

theorem refresh_version_info_fetch_some {d : Device}
    (hu : productUnresolved d = true) (r : StateVersionPayload) :
    refresh_version_info d true (some r)
      = ({ d with product_info :=
            { vendor := .known r.vendor, product := .known r.product,
              version := .known r.version } }, true, false) := by
  simp [refresh_version_info, hu]

theorem refresh_version_info_fetch_none {d : Device}
    (hu : productUnresolved d = true) :
    refresh_version_info d true none = (d, true, true) := by
  simp [refresh_version_info, hu]

theorem productUnresolved_after_fetch (d : Device) (r : StateVersionPayload) :
    productUnresolved
      { d with product_info :=
          { vendor := .known r.vendor, product := .known r.product,
            version := .known r.version } } = false := by
  simp [productUnresolved]

/-- C8: a product-feature flag access issues a version-info request
exactly when the product identifier is still unresolved; when the cache
is already resolved the access reads it directly (no request, no state
change); and once a version-info refresh succeeds, the product is
resolved, so every subsequent flag access reads the cache and never
re-fetches. -/
theorem supports_lazy_resolution (d : Device) (fmap : PVal → String → Bool)
    (feature feature2 : String) (env env2 : Option StateVersionPayload) :
    ((supportsAccess d fmap feature env).2.1 = productUnresolved d) ∧
    (productUnresolved d = false →
      supportsAccess d fmap feature env
        = (d, false, some (fmap d.product_info.product feature))) ∧
    (∀ r, env = some r →
      productUnresolved (supportsAccess d fmap feature env).1 = false) ∧
    (∀ r, env = some r →
      supportsAccess (supportsAccess d fmap feature env).1 fmap feature2 env2
        = ((supportsAccess d fmap feature env).1, false,
            some (fmap (supportsAccess d fmap feature env).1.product_info.product
              feature2))) := by
  cases hu : productUnresolved d
  · refine ⟨?_, ?_, ?_, ?_⟩
    · simp [supportsAccess, refresh_version_info_skip hu]
    · intro _
      simp [supportsAccess, refresh_version_info_skip hu]
    · intro r2 hr2
      simp [supportsAccess, refresh_version_info_skip hu, hu]
    · intro r2 hr2
      simp only [supportsAccess, refresh_version_info_skip hu env,
        refresh_version_info_skip hu env2]
  · cases env with
    | some r =>
      refine ⟨?_, ?_, ?_, ?_⟩
      · simp [supportsAccess, refresh_version_info_fetch_some hu r, hu]
      · intro hfalse
        exact absurd hfalse (by decide)
      · intro r2 hr2
        simp [supportsAccess, refresh_version_info_fetch_some hu r,
          productUnresolved_after_fetch]
      · intro r2 hr2
        simp only [supportsAccess, refresh_version_info_fetch_some hu r]
        simp only [refresh_version_info_skip (productUnresolved_after_fetch d r) env2]
    | none =>
      refine ⟨?_, ?_, ?_, ?_⟩
      · simp [supportsAccess, refresh_version_info_fetch_none hu, hu]
      · intro hfalse
        exact absurd hfalse (by decide)
      · intro r2 hr2
        exact absurd hr2 (by simp)
      · intro r2 hr2
        exact absurd hr2 (by simp)

/-- Witness for C8 at concrete inputs: a fresh device's first flag access
fetches; after a successful version-info refresh the next access does
not fetch and reads the cache. -/
theorem supports_lazy_resolution_witness :
    ((supportsAccess (mkDevice "aa:bb:cc:dd:ee:ff" none 1 56700 7)
        (fun _ _ => true) "color" (some ⟨1, 22, 0⟩)).2.1
      = productUnresolved (mkDevice "aa:bb:cc:dd:ee:ff" none 1 56700 7)) ∧
    supportsAccess
        (supportsAccess (mkDevice "aa:bb:cc:dd:ee:ff" none 1 56700 7)
          (fun _ _ => true) "color" (some ⟨1, 22, 0⟩)).1
        (fun _ _ => true) "infrared" none
      = ((supportsAccess (mkDevice "aa:bb:cc:dd:ee:ff" none 1 56700 7)
          (fun _ _ => true) "color" (some ⟨1, 22, 0⟩)).1, false, some true) :=
  ⟨(supports_lazy_resolution (mkDevice "aa:bb:cc:dd:ee:ff" none 1 56700 7)
      (fun _ _ => true) "color" "infrared" (some ⟨1, 22, 0⟩) none).1,
    (supports_lazy_resolution (mkDevice "aa:bb:cc:dd:ee:ff" none 1 56700 7)
      (fun _ _ => true) "color" "infrared" (some ⟨1, 22, 0⟩) none).2.2.2
      ⟨1, 22, 0⟩ rfl⟩

/-! ### C9: set_label truncates to 32 characters -/

/-- C9: `set_label` caches and sends exactly the first 32 characters of
its argument, and a label of at most 32 characters is stored and sent
unchanged. -/
theorem set_label_truncates (d : Device) (s : String) :
    (set_label_model d s).1.label = some (strTake s 32) ∧
    (set_label_model d s).2.payload = .label (strTake s 32) ∧
    (s.length ≤ 32 →
      (set_label_model d s).1.label = some s ∧
      (set_label_model d s).2.payload = .label s) := by
  refine ⟨rfl, rfl, fun h => ?_⟩
  have htake : strTake s 32 = s := by
    cases s with
    | mk data =>
      have hlen : data.length ≤ 32 := h
      simp [strTake, List.take_of_length_le hlen]
  rw [set_label_model, htake]
  exact ⟨rfl, rfl⟩

/-- Witness for C9 at a concrete short label. -/
theorem set_label_truncates_witness :
    (set_label_model (mkDevice "aa:bb:cc:dd:ee:ff" none 1 56700 3) "kitchen").1.label
      = some "kitchen" :=
  ((set_label_truncates (mkDevice "aa:bb:cc:dd:ee:ff" none 1 56700 3) "kitchen").2.2
    (by decide)).1

/-! ### C10: get_color refreshes color, power_level and label together -/

/-- C10: a successful `get_color` caches the response's color and also
overwrites the cached `power_level` and `label` with the values carried
by the `LightState` response, returns the color, and leaves every other
cached state field (location, group, firmware infos, product info,
infrared brightness) unchanged; the only identity field touched is
`ip_addr`, which the underlying `req_with_resp` sets to the responder. -/
theorem get_color_spec (l : Light) (r : LightStateResp) (sender_ip : String) :
    (get_color l r sender_ip).1.color = some r.color ∧
    (get_color l r sender_ip).1.dev.power_level = some (.num r.power_level) ∧
    (get_color l r sender_ip).1.dev.label = some r.label ∧
    (get_color l r sender_ip).2 = r.color ∧
    (get_color l r sender_ip).1.dev.location = l.dev.location ∧
    (get_color l r sender_ip).1.dev.group = l.dev.group ∧
    (get_color l r sender_ip).1.dev.host_firmware_info = l.dev.host_firmware_info ∧
    (get_color l r sender_ip).1.dev.wifi_firmware_info = l.dev.wifi_firmware_info ∧
    (get_color l r sender_ip).1.dev.product_info = l.dev.product_info ∧
    (get_color l r sender_ip).1.infrared_brightness = l.infrared_brightness ∧
    (get_color l r sender_ip).1.dev.mac_addr = l.dev.mac_addr ∧
    (get_color l r sender_ip).1.dev.port = l.dev.port ∧
    (get_color l r sender_ip).1.dev.service = l.dev.service ∧
    (get_color l r sender_ip).1.dev.source_id = l.dev.source_id ∧
    (get_color l r sender_ip).1.dev.ip_addr = some sender_ip :=
  ⟨rfl, rfl, rfl, rfl, rfl, rfl, rfl, rfl, rfl, rfl, rfl, rfl, rfl, rfl, rfl⟩

end Lifx
